import Mathlib

/-!
Verification of the Maytronics Dolphin cloud-connectivity core
(`com.maytronics.dolphin`): a shallow embedding of the state
interpreter (`constants.ts`), the shadow session (`MaytronicsCloud.ts`),
the device update handler (`device.ts`) and the SigV4 request signer
(`aws-sig-v4.ts`), together with theorems about the spec's claims.
-/

namespace Dolphin

/-! ## State Interpreter (`constants.ts`) -/

/-- The seven derived statuses (`CalculatedState` enum values in
`constants.ts`): off, cleaning, error, init, programming, holddelay,
holdweekly. -/
def derivedStatuses : List String :=
  ["off", "cleaning", "error", "init", "programming", "holddelay", "holdweekly"]

/-- The `calculateState(pwsState, robotState)` from `constants.ts`: the
ordered if-chain deriving a status string from the power-supply state
and robot state strings.  String comparisons mirror the `===`/`!==`
comparisons against the `PwsState` / `RobotState` enum string values. -/
def calculateState (pwsState robotState : String) : String :=
  if pwsState = "error" ∨ robotState = "fault" then "error"
  else if pwsState = "programming" ∧ robotState = "programming" then "programming"
  else if pwsState = "holdDelay" then "holddelay"
  else if pwsState = "holdWeekly" then "holdweekly"
  else if pwsState = "on" ∧ robotState = "init" then "init"
  else if (pwsState = "programming" ∧ robotState ≠ "finished")
      ∨ (pwsState = "on" ∧ robotState ≠ "notConnected" ∧ robotState ≠ "finished") then
    "cleaning"
  else "off"

/-- The spec's ordered precedence rules for `calculateStatus`, written
from the spec's own rule table (section 4.3): each rule is a decidable
condition on the pair of input strings together with the status it
yields. -/
def statusRules : List ((String → String → Bool) × String) :=
  [ (fun p r => p == "error" || r == "fault", "error"),
    (fun p r => p == "programming" && r == "programming", "programming"),
    (fun p _ => p == "holdDelay", "holddelay"),
    (fun p _ => p == "holdWeekly", "holdweekly"),
    (fun p r => p == "on" && r == "init", "init"),
    (fun p r => (p == "programming" && r != "finished")
        || (p == "on" && r != "notConnected" && r != "finished"), "cleaning") ]

/-- First-match evaluation of an ordered rule list, falling through to
the spec's rule 7 (`otherwise → off`). -/
def firstMatch : List ((String → String → Bool) × String) → String → String → String
  | [], _, _ => "off"
  | rule :: rest, p, r => if rule.1 p r then rule.2 else firstMatch rest p r

/-- The `getFilterBagStatus(value)` from `constants.ts`: fixed numeric bands
over the filter-bag indication value. -/
def getFilterBagStatus (value : Int) : String :=
  if value < 0 then "unknown"
  else if value = 0 then "empty"
  else if value ≤ 25 then "partially_full"
  else if value ≤ 74 then "getting_full"
  else if value ≤ 99 then "almost_full"
  else if value = 100 then "full"
  else if value = 101 then "fault"
  else if value = 102 then "not_available"
  else "unknown"

/-- The eight filter-bag classifications that `getFilterBagStatus` can
return. -/
def filterBagStatuses : List String :=
  ["unknown", "empty", "partially_full", "getting_full", "almost_full",
   "full", "fault", "not_available"]

/-! ## MQTT topics (`constants.ts`) -/

/-- The `getShadowGetTopic` from `constants.ts`. -/
def getShadowGetTopic (motorUnitSerial : String) : String :=
  "$aws/things/" ++ motorUnitSerial ++ "/shadow/get"

/-- The `getShadowUpdateTopic` from `constants.ts`. -/
def getShadowUpdateTopic (motorUnitSerial : String) : String :=
  "$aws/things/" ++ motorUnitSerial ++ "/shadow/update"

/-- The `getShadowWildcardTopic` from `constants.ts`. -/
def getShadowWildcardTopic (motorUnitSerial : String) : String :=
  "$aws/things/" ++ motorUnitSerial ++ "/shadow/#"

/-- The `getDynamicTopic` from `constants.ts`. -/
def getDynamicTopic (motorUnitSerial : String) : String :=
  "Maytronics/" ++ motorUnitSerial ++ "/main"

/-! ## Shadow Session (`MaytronicsCloud.ts`)

The session's externally observable behaviour is modelled by explicit
state passing: the mutable fields of `MaytronicsCloud` become a record,
publishes and emitted events become result lists. -/

/-- JSON documents, for the payloads the session publishes. -/
inductive Json where
  | null
  | bool (b : Bool)
  | num (n : Int)
  | str (s : String)
  | arr (elems : List Json)
  | obj (fields : List (String × Json))

/-- The mutable fields of `MaytronicsCloud`: `client` (the MQTT client
handle, identified by a creation counter, `null` encoded as `none`),
`motorUnitSerial`, and the `_connected` flag. -/
structure CloudState where
  client : Option Nat
  motorUnitSerial : String
  connected : Bool
deriving DecidableEq

/-- Events emitted on the `MaytronicsCloud` event emitter that the
claims are about. -/
inductive CloudEvent where
  | connectedEv
  | disconnectedEv
  | errorEv (message : String)
deriving DecidableEq

/-- A single MQTT publish: topic and JSON payload. -/
structure Publish where
  topic : String
  payload : Json

/-- The `MaytronicsCloud.sendCommand(desired)`: when there is no client or
the connected flag is down, emit one error event and do nothing else;
otherwise publish `{state:{desired}}` to the shadow update topic for
the stored device id.  Result: (new state, emitted events, publishes). -/
def sendCommand (st : CloudState) (desired : Json) :
    CloudState × List CloudEvent × List Publish :=
  if st.client = none ∨ st.connected = false then
    (st, [CloudEvent.errorEv "Cannot send command: not connected"], [])
  else
    (st, [], [{ topic := getShadowUpdateTopic st.motorUnitSerial,
                payload := Json.obj [("state", Json.obj [("desired", desired)])] }])

/-- The `MaytronicsCloud.requestState()`: publish `{}` to the shadow get
topic, a no-op when not connected. -/
def requestState (st : CloudState) :
    CloudState × List CloudEvent × List Publish :=
  if st.client = none ∨ st.connected = false then (st, [], [])
  else (st, [], [{ topic := getShadowGetTopic st.motorUnitSerial,
                   payload := Json.obj [] }])

/-- The `DolphinDevice.returnToBase()` sends the desired delta
`{cleaningMode:{mode:'pickup'}}` through `sendCommand`. -/
def returnToBase (st : CloudState) :
    CloudState × List CloudEvent × List Publish :=
  sendCommand st (Json.obj [("cleaningMode", Json.obj [("mode", Json.str "pickup")])])

/-- The transport `close` handler installed in `connect`: emit
`disconnected` only if the `_connected` flag was up, and clear it. -/
def onClose (st : CloudState) : CloudState × List CloudEvent :=
  if st.connected then ({ st with connected := false }, [CloudEvent.disconnectedEv])
  else (st, [])

/-- A sequence of `n` transport close signals processed by the close
handler, collecting emitted events. -/
def runCloses : CloudState → Nat → CloudState × List CloudEvent
  | st, 0 => (st, [])
  | st, n + 1 =>
    let s1 := onClose st
    let s2 := runCloses s1.1 n
    (s2.1, s1.2 ++ s2.2)

/-- The number of `disconnected` events in an event list. -/
def countDisconnected (evs : List CloudEvent) : Nat :=
  evs.countP (fun e => e == CloudEvent.disconnectedEv)

/-- The session world for the transport-ownership invariant: the cloud
state plus a ghost list of created-but-not-yet-forcefully-ended
transports and a fresh-handle counter.  `mqtt.connect` creates a fresh
transport; `client.end(true)` in `disconnect` removes it. -/
structure SessionWorld where
  st : CloudState
  liveTransports : List Nat
  nextId : Nat

/-- The `MaytronicsCloud.disconnect()`: a no-op when no client exists;
otherwise clears the connected flag, forcefully ends the client
(removing it from the live transports) and nulls the handle. -/
def disconnectOp (w : SessionWorld) : SessionWorld :=
  match w.st.client with
  | none => w
  | some h =>
    { w with st := { w.st with connected := false, client := none },
             liveTransports := w.liveTransports.erase h }

/-- The `MaytronicsCloud.connect(serial, …)` up to transport creation: store
the serial, await `disconnect()` to completion, then create a fresh
client via `mqtt.connect` and store its handle. -/
def connectOp (w : SessionWorld) (serial : String) : SessionWorld :=
  let w1 := disconnectOp { w with st := { w.st with motorUnitSerial := serial } }
  { w1 with st := { w1.st with client := some w1.nextId },
            liveTransports := w1.liveTransports ++ [w1.nextId],
            nextId := w1.nextId + 1 }

/-- Session invariant: the live transports are exactly the one the
`client` field holds (so there is at most one), and every live handle
was created by the counter. -/
def SessionInv (w : SessionWorld) : Prop :=
  w.liveTransports = w.st.client.toList ∧ ∀ h ∈ w.liveTransports, h < w.nextId

/-! ## Reported state and the device update handler (`types.ts`,
`device.ts`) -/

/-- The `SystemState` fragment (`types.ts`), restricted to the fields
`device.ts` reads. -/
structure SystemState where
  pwsState : String
  robotState : String
  rTurnOnCount : Option Int := none

/-- The `cleaningMode` object inside `CycleInfo` (`types.ts`). -/
structure CleaningMode where
  mode : String
  cycleTime : Option Int := none
  cycleStartTimeUTC : Option Int := none

/-- The `CycleInfo` fragment (`types.ts`). -/
structure CycleInfo where
  cleaningMode : Option CleaningMode := none

/-- The `LedState` fragment (`types.ts`). -/
structure LedState where
  ledMode : Int
  ledIntensity : Int
  ledEnable : Bool

/-- The `FilterBagIndication` fragment (`types.ts`). -/
structure FilterBagIndication where
  state : Int

/-- The `DebugInfo` fragment (`types.ts`). -/
structure DebugInfo where
  WIFI_RSSI : Option Int := none
  WIFI_NETName : Option String := none

/-- The `WifiInfo` fragment (`types.ts`). -/
structure WifiInfo where
  netName : Option String := none

/-- The `ErrorInfo` fragment (`types.ts`). -/
structure ErrorInfo where
  errorCode : Int

/-- The `ReportedState` (`types.ts`): independently optional fragments. -/
structure ReportedState where
  systemState : Option SystemState := none
  cycleInfo : Option CycleInfo := none
  led : Option LedState := none
  filterBagIndication : Option FilterBagIndication := none
  debug : Option DebugInfo := none
  wifi : Option WifiInfo := none
  robotError : Option ErrorInfo := none

/-- Capability values, as stored by `setCapabilityValue`.  The `dim`
capability stores `ledIntensity / 100`, modelled exactly as a rational. -/
inductive CapValue where
  | b (v : Bool)
  | i (v : Int)
  | s (v : String)
  | q (v : Rat)
deriving DecidableEq

/-- Flow trigger cards fired by `device.ts`. -/
inductive DeviceTrigger where
  | cleaningStarted (mode : String)
  | cleaningFinished
  | filterBagFull
  | robotErrorOccurred (errorCode : Int)
deriving DecidableEq

/-- The mutable fields of `DolphinDevice` that `onStateUpdate` touches. -/
structure DeviceState where
  previousStatus : String
  currentLedState : LedState

/-- The observable effects of one `onStateUpdate` call: capability
writes (in program order) and fired triggers. -/
structure UpdateEffects where
  capabilityWrites : List (String × CapValue)
  triggers : List DeviceTrigger

/-- JS truthiness of an optional number (`undefined` and `0` are
falsy). -/
def truthyInt : Option Int → Bool
  | some n => n != 0
  | none => false

/-- The `state.cycleInfo?.cleaningMode?.mode || 'all'` as used by
`handleStatusChange` for the `cleaning_started` trigger token. -/
def modeOrAll (state : ReportedState) : String :=
  match state.cycleInfo with
  | none => "all"
  | some ci =>
    match ci.cleaningMode with
    | none => "all"
    | some cm => if cm.mode = "" then "all" else cm.mode

/-- The `DolphinDevice.handleStatusChange(previous, current, state)`: fires
`cleaning_started` on a transition into `cleaning` and
`cleaning_finished` on a transition out of it. -/
def handleStatusChange (previous current : String) (state : ReportedState) :
    List DeviceTrigger :=
  (if current = "cleaning" ∧ previous ≠ "cleaning" then
    [DeviceTrigger.cleaningStarted (modeOrAll state)]
  else [])
    ++ (if previous = "cleaning" ∧ current ≠ "cleaning" then
      [DeviceTrigger.cleaningFinished]
    else [])

/-- The capability writes of the `systemState` block of
`onStateUpdate`: `onoff`, `robot_status`, and `cycle_count` when the
power-on counter is present. -/
def systemStateWrites (sys : SystemState) : List (String × CapValue) :=
  let calcStatus := calculateState sys.pwsState sys.robotState
  [("onoff", CapValue.b (calcStatus == "cleaning" || calcStatus == "init")),
   ("robot_status", CapValue.s calcStatus)]
    ++ (match sys.rTurnOnCount with
      | some n => [("cycle_count", CapValue.i n)]
      | none => [])

/-- The `LED_MODES` lookup from `constants.ts`. -/
def LED_MODES (n : Int) : Option String :=
  if n = 1 then some "blinking"
  else if n = 2 then some "always_on"
  else if n = 3 then some "disco"
  else none

/-- The capability writes of the `cycleInfo` block of `onStateUpdate`:
`cleaning_mode` for every non-empty mode except `pickup`, and
`cycle_time_remaining` from the cycle timing (or `0` when the derived
status is `off`).  `nowMs` embeds `Date.now()`. -/
def cycleInfoWrites (calculatedStatus : Option String) (ci : Option CycleInfo)
    (nowMs : Int) : List (String × CapValue) :=
  match ci with
  | none => []
  | some info =>
    match info.cleaningMode with
    | none => []
    | some cm =>
      if cm.mode = "" then []
      else
        (if cm.mode ≠ "pickup" then [("cleaning_mode", CapValue.s cm.mode)] else [])
          ++ (if truthyInt cm.cycleTime && truthyInt cm.cycleStartTimeUTC then
            let nowSeconds := nowMs.fdiv 1000
            let elapsedMinutes := (nowSeconds - (cm.cycleStartTimeUTC.getD 0)).fdiv 60
            let remaining := max 0 ((cm.cycleTime.getD 0) - elapsedMinutes)
            [("cycle_time_remaining", CapValue.i remaining)]
          else if calculatedStatus = some "off" then
            [("cycle_time_remaining", CapValue.i 0)]
          else [])

/-- The `filterBagIndication` block of `onStateUpdate`: set the
`filter_status` capability for values within 0–100 and fire the
`filter_bag_full` trigger at the threshold. -/
def filterBagEffects (fb : FilterBagIndication) :
    List (String × CapValue) × List DeviceTrigger :=
  if 0 ≤ fb.state ∧ fb.state ≤ 100 then
    ([("filter_status", CapValue.i fb.state)],
     if 100 ≤ fb.state then [DeviceTrigger.filterBagFull] else [])
  else ([], [])

/-- The `state.debug?.WIFI_NETName || state.wifi?.netName` (first truthy
wins, absent encoded as the empty string). -/
def netNameOf (state : ReportedState) : String :=
  let a := match state.debug with
    | some d => d.WIFI_NETName.getD ""
    | none => ""
  if a ≠ "" then a
  else
    match state.wifi with
    | some w => w.netName.getD ""
    | none => ""

/-- The wifi/network block of `onStateUpdate`. -/
def networkWrites (state : ReportedState) : List (String × CapValue) :=
  (match state.debug with
    | some d =>
      match d.WIFI_RSSI with
      | some rssi => [("wifi_signal", CapValue.i rssi)]
      | none => []
    | none => [])
    ++ (if netNameOf state ≠ "" then [("network_name", CapValue.s (netNameOf state))]
      else [])

/-- The `robotError` block of `onStateUpdate`. -/
def robotErrorEffects (e : ErrorInfo) :
    List (String × CapValue) × List DeviceTrigger :=
  ([("robot_error",
      CapValue.s (if 0 < e.errorCode then "Error " ++ toString e.errorCode else "None"))],
   if 0 < e.errorCode then [DeviceTrigger.robotErrorOccurred e.errorCode] else [])

/-- The `led` block of `onStateUpdate`. -/
def ledWrites (led : LedState) : List (String × CapValue) :=
  [("led_mode", CapValue.s ((LED_MODES led.ledMode).getD "blinking")),
   ("dim", CapValue.q ((led.ledIntensity : Rat) / 100))]

/-- The `DolphinDevice.onStateUpdate(state)`: processes each present
fragment in program order, returning the new device state and the
observable effects.  The `previousStatus` field is updated (and the
status-change triggers fired) only when a `systemState` fragment is
present and the derived status differs from the recorded one. -/
def onStateUpdate (dev : DeviceState) (state : ReportedState) (nowMs : Int) :
    DeviceState × UpdateEffects :=
  let sysPart : Option String × String × List (String × CapValue) × List DeviceTrigger :=
    match state.systemState with
    | none => (none, dev.previousStatus, [], [])
    | some sys =>
      let calcStatus := calculateState sys.pwsState sys.robotState
      if dev.previousStatus ≠ calcStatus then
        (some calcStatus, calcStatus, systemStateWrites sys,
         handleStatusChange dev.previousStatus calcStatus state)
      else (some calcStatus, dev.previousStatus, systemStateWrites sys, [])
  let calcOpt := sysPart.1
  let newPrev := sysPart.2.1
  let sysWrites := sysPart.2.2.1
  let sysTriggers := sysPart.2.2.2
  let cycleWrites := cycleInfoWrites calcOpt state.cycleInfo nowMs
  let fbPart := match state.filterBagIndication with
    | some fb => filterBagEffects fb
    | none => ([], [])
  let netWrites := networkWrites state
  let errPart := match state.robotError with
    | some e => robotErrorEffects e
    | none => ([], [])
  let ledPart := match state.led with
    | some l => (ledWrites l, l)
    | none => ([], dev.currentLedState)
  ({ previousStatus := newPrev, currentLedState := ledPart.2 },
   { capabilityWrites :=
       sysWrites ++ cycleWrites ++ fbPart.1 ++ netWrites ++ errPart.1 ++ ledPart.1,
     triggers := sysTriggers ++ fbPart.2 ++ errPart.2 })

/-- A sequence of `stateUpdate` deliveries (each paired with its
`Date.now()` reading), collecting all fired triggers. -/
def runUpdates (dev : DeviceState) :
    List (ReportedState × Int) → DeviceState × List DeviceTrigger
  | [] => (dev, [])
  | (state, nowMs) :: rest =>
    let s1 := onStateUpdate dev state nowMs
    let s2 := runUpdates s1.1 rest
    (s2.1, s1.2.triggers ++ s2.2)

/-- Whether a trigger is the `cleaning_started` card. -/
def isStarted : DeviceTrigger → Bool
  | DeviceTrigger.cleaningStarted _ => true
  | _ => false

/-- Whether a trigger is the `cleaning_finished` card. -/
def isFinished : DeviceTrigger → Bool
  | DeviceTrigger.cleaningFinished => true
  | _ => false

/-- The derived status an update's `systemState` fragment yields (the
empty string when the fragment is absent). -/
def derivedOf (state : ReportedState) : String :=
  match state.systemState with
  | some sys => calculateState sys.pwsState sys.robotState
  | none => ""

/-- The number of entries into `cleaning` along a status trace starting
from a recorded previous status. -/
def countStartTransitions (prev : String) : List String → Nat
  | [] => 0
  | s :: rest =>
    (if s = "cleaning" ∧ prev ≠ "cleaning" then 1 else 0) + countStartTransitions s rest

/-- The number of exits from `cleaning` along a status trace starting
from a recorded previous status. -/
def countFinishTransitions (prev : String) : List String → Nat
  | [] => 0
  | s :: rest =>
    (if prev = "cleaning" ∧ s ≠ "cleaning" then 1 else 0) + countFinishTransitions s rest

/-! ## Request Signer (`aws-sig-v4.ts`)

`crypto.createHash('sha256')` / `crypto.createHmac('sha256', …)` are
embedded as an executable SHA-256 / HMAC-SHA256 over byte lists
(naturals below 256); `new Date()` is embedded as the `toISOString()`
string it is immediately converted to, passed as the `nowIso`
parameter. -/

/-- UTF-8 encoding of one character. -/
def utf8EncodeChar (c : Char) : List Nat :=
  let n := c.toNat
  if n < 128 then [n]
  else if n < 2048 then [192 + n / 64, 128 + n % 64]
  else if n < 65536 then [224 + n / 4096, 128 + (n / 64) % 64, 128 + n % 64]
  else [240 + n / 262144, 128 + (n / 4096) % 64, 128 + (n / 64) % 64, 128 + n % 64]

/-- UTF-8 encoding of a string (the byte view Node's crypto primitives
consume). -/
def utf8Encode (s : String) : List Nat :=
  List.flatten (s.data.map utf8EncodeChar)

/-- 2^32, the SHA-256 word modulus. -/
def w32 : Nat := 4294967296

/-- Addition modulo 2^32. -/
def add32 (a b : Nat) : Nat := (a + b) % w32

/-- Right rotation of a 32-bit word. -/
def rotr32 (n x : Nat) : Nat := ((x >>> n) ||| (x <<< (32 - n))) % w32

/-- SHA-256 round constants. -/
def shaK : List Nat :=
  [1116352408, 1899447441, 3049323471, 3921009573,
   961987163, 1508970993, 2453635748, 2870763221,
   3624381080, 310598401, 607225278, 1426881987,
   1925078388, 2162078206, 2614888103, 3248222580,
   3835390401, 4022224774, 264347078, 604807628,
   770255983, 1249150122, 1555081692, 1996064986,
   2554220882, 2821834349, 2952996808, 3210313671,
   3336571891, 3584528711, 113926993, 338241895,
   666307205, 773529912, 1294757372, 1396182291,
   1695183700, 1986661051, 2177026350, 2456956037,
   2730485921, 2820302411, 3259730800, 3345764771,
   3516065817, 3600352804, 4094571909, 275423344,
   430227734, 506948616, 659060556, 883997877,
   958139571, 1322822218, 1537002063, 1747873779,
   1955562222, 2024104815, 2227730452, 2361852424,
   2428436474, 2756734187, 3204031479, 3329325298]

/-- SHA-256 initial hash value. -/
def shaH0 : List Nat :=
  [1779033703, 3144134277, 1013904242, 2773480762,
   1359893119, 2600822924, 528734635, 1541459225]

/-- SHA-256 message padding: a `0x80` byte, zeros to 56 mod 64, then the
64-bit big-endian bit length. -/
def sha256Pad (msg : List Nat) : List Nat :=
  let len := msg.length
  let k := (120 - ((len + 1) % 64)) % 64
  msg ++ [128] ++ List.replicate k 0
    ++ (List.range 8).map (fun i => ((len * 8) >>> (8 * (7 - i))) % 256)

/-- Split a padded message into its 64-byte blocks. -/
def chunksOf64 (bs : List Nat) : List (List Nat) :=
  (List.range (bs.length / 64)).map (fun i => ((bs.drop (64 * i)).take 64))

/-- Big-endian 32-bit word from four bytes. -/
def beWord (b0 b1 b2 b3 : Nat) : Nat := ((b0 * 256 + b1) * 256 + b2) * 256 + b3

/-- The sixteen message-schedule words of one block. -/
def toWords (chunk : List Nat) : List Nat :=
  (List.range 16).map (fun i =>
    beWord (chunk.getD (4 * i) 0) (chunk.getD (4 * i + 1) 0)
      (chunk.getD (4 * i + 2) 0) (chunk.getD (4 * i + 3) 0))

/-- SHA-256 σ₀. -/
def smallSigma0 (x : Nat) : Nat := (rotr32 7 x) ^^^ (rotr32 18 x) ^^^ (x >>> 3)

/-- SHA-256 σ₁. -/
def smallSigma1 (x : Nat) : Nat := (rotr32 17 x) ^^^ (rotr32 19 x) ^^^ (x >>> 10)

/-- SHA-256 Σ₀. -/
def bigSigma0 (x : Nat) : Nat := (rotr32 2 x) ^^^ (rotr32 13 x) ^^^ (rotr32 22 x)

/-- SHA-256 Σ₁. -/
def bigSigma1 (x : Nat) : Nat := (rotr32 6 x) ^^^ (rotr32 11 x) ^^^ (rotr32 25 x)

/-- Extend the sixteen schedule words to sixty-four. -/
def extendSchedule (ws : List Nat) : List Nat :=
  (List.range 48).foldl
    (fun w _ =>
      let t := w.length
      w ++ [add32 (add32 (smallSigma1 (w.getD (t - 2) 0)) (w.getD (t - 7) 0))
        (add32 (smallSigma0 (w.getD (t - 15) 0)) (w.getD (t - 16) 0))])
    ws

/-- The eight SHA-256 working registers. -/
structure ShaRegs where
  a : Nat
  b : Nat
  c : Nat
  d : Nat
  e : Nat
  f : Nat
  g : Nat
  hh : Nat

/-- Compress one 64-byte block into the running hash state. -/
def compressChunk (hs : List Nat) (chunk : List Nat) : List Nat :=
  let w := extendSchedule (toWords chunk)
  let start : ShaRegs :=
    ⟨hs.getD 0 0, hs.getD 1 0, hs.getD 2 0, hs.getD 3 0,
     hs.getD 4 0, hs.getD 5 0, hs.getD 6 0, hs.getD 7 0⟩
  let fin := (List.range 64).foldl
    (fun r i =>
      let ch := (r.e &&& r.f) ^^^ ((r.e ^^^ 4294967295) &&& r.g)
      let t1 := add32 r.hh
        (add32 (bigSigma1 r.e) (add32 ch (add32 (shaK.getD i 0) (w.getD i 0))))
      let maj := (r.a &&& r.b) ^^^ (r.a &&& r.c) ^^^ (r.b &&& r.c)
      let t2 := add32 (bigSigma0 r.a) maj
      ⟨add32 t1 t2, r.a, r.b, r.c, add32 r.d t1, r.e, r.f, r.g⟩)
    start
  [add32 (hs.getD 0 0) fin.a, add32 (hs.getD 1 0) fin.b,
   add32 (hs.getD 2 0) fin.c, add32 (hs.getD 3 0) fin.d,
   add32 (hs.getD 4 0) fin.e, add32 (hs.getD 5 0) fin.f,
   add32 (hs.getD 6 0) fin.g, add32 (hs.getD 7 0) fin.hh]

/-- SHA-256 digest of a byte list. -/
def sha256Bytes (msg : List Nat) : List Nat :=
  let hs := (chunksOf64 (sha256Pad msg)).foldl compressChunk shaH0
  List.flatten (hs.map (fun word =>
    [(word >>> 24) % 256, (word >>> 16) % 256, (word >>> 8) % 256, word % 256]))

/-- Lowercase hexadecimal digit. -/
def hexDigitLower (n : Nat) : Char :=
  if n < 10 then Char.ofNat (48 + n) else Char.ofNat (87 + n)

/-- Lowercase hex string of a byte list (`.digest('hex')`). -/
def bytesToHex (bs : List Nat) : String :=
  String.mk (List.flatten (bs.map (fun b => [hexDigitLower (b / 16), hexDigitLower (b % 16)])))

/-- The `sha256(data)` helper of `aws-sig-v4.ts`: hex digest of a
string. -/
def sha256 (data : String) : String := bytesToHex (sha256Bytes (utf8Encode data))

/-- HMAC-SHA256 over byte lists. -/
def hmacBytes (key msg : List Nat) : List Nat :=
  let k0 := if 64 < key.length then sha256Bytes key else key
  let k1 := k0 ++ List.replicate (64 - k0.length) 0
  sha256Bytes ((k1.map (fun b => b ^^^ 92))
    ++ sha256Bytes ((k1.map (fun b => b ^^^ 54)) ++ msg))

/-- The `hmac(key, data)` helper of `aws-sig-v4.ts`: keyed digest of a
string, returning raw bytes. -/
def hmac (key : List Nat) (data : String) : List Nat :=
  hmacBytes key (utf8Encode data)

/-- Characters `encodeURIComponent` leaves unescaped. -/
def isUriUnreserved (c : Char) : Bool :=
  c.isAlpha || c.isDigit || c = '-' || c = '_' || c = '.' || c = '!'
    || c = '~' || c = '*' || c = '\'' || c = '(' || c = ')'

/-- Uppercase hexadecimal digit (percent-escapes use uppercase hex). -/
def hexDigitUpper (n : Nat) : Char :=
  if n < 10 then Char.ofNat (48 + n) else Char.ofNat (55 + n)

/-- Percent-escape one character as its UTF-8 bytes. -/
def percentEncodeChar (c : Char) : List Char :=
  List.flatten ((utf8EncodeChar c).map
    (fun b => ['%', hexDigitUpper (b / 16), hexDigitUpper (b % 16)]))

/-- JavaScript's `encodeURIComponent`. -/
def encodeURIComponent (s : String) : String :=
  String.mk (List.flatten (s.data.map
    (fun c => if isUriUnreserved c then [c] else percentEncodeChar c)))

/-- The regex replace `/[:-]|\.\d{3}/g → ''` applied to an ISO-8601
timestamp: drops `:` and `-`, and a `.` followed by exactly three
digits together with those digits. -/
def stripIsoPunct : List Char → List Char
  | [] => []
  | c :: d1 :: d2 :: d3 :: rest2 =>
    if c = ':' ∨ c = '-' then stripIsoPunct (d1 :: d2 :: d3 :: rest2)
    else if c = '.' ∧ d1.isDigit ∧ d2.isDigit ∧ d3.isDigit then stripIsoPunct rest2
    else c :: stripIsoPunct (d1 :: d2 :: d3 :: rest2)
  | c :: rest =>
    if c = ':' ∨ c = '-' then stripIsoPunct rest
    else c :: stripIsoPunct rest

/-- The `AwsCredentials` (`types.ts`). -/
structure AwsCredentials where
  Token : String
  AccessKeyId : String
  SecretAccessKey : String
deriving DecidableEq

/-- The `dateStamp`: first eight characters of the stripped ISO timestamp
(`YYYYMMDD`). -/
def dateStampOf (nowIso : String) : String :=
  String.mk ((stripIsoPunct nowIso.data).take 8)

/-- The `amzDate`: first fifteen characters of the stripped ISO timestamp
followed by `Z` (`YYYYMMDDTHHMMSSZ`). -/
def amzDateOf (nowIso : String) : String :=
  String.mk ((stripIsoPunct nowIso.data).take 15) ++ "Z"

/-- The fixed service name of the signer. -/
def serviceName : String := "iotdevicegateway"

/-- The `credentialScope`: `date/region/service/aws4_request`. -/
def credentialScopeOf (region nowIso : String) : String :=
  dateStampOf nowIso ++ "/" ++ region ++ "/" ++ serviceName ++ "/aws4_request"

/-- The canonical query string of `aws-sig-v4.ts`: exactly the four
signing parameters in fixed order, the credential percent-encoded.  The
session token is not an input: the signed parameter set is built
without it. -/
def canonicalQueryStringOf (region accessKeyId nowIso : String) : String :=
  "X-Amz-Algorithm=AWS4-HMAC-SHA256"
    ++ "&X-Amz-Credential="
    ++ encodeURIComponent (accessKeyId ++ "/" ++ credentialScopeOf region nowIso)
    ++ "&X-Amz-Date=" ++ amzDateOf nowIso
    ++ "&X-Amz-SignedHeaders=host"

/-- The canonical request string. -/
def canonicalRequestOf (endpoint region accessKeyId nowIso : String) : String :=
  "GET\n/mqtt\n" ++ canonicalQueryStringOf region accessKeyId nowIso
    ++ "\nhost:" ++ endpoint ++ "\n\nhost\n" ++ sha256 ""

/-- The string to sign. -/
def stringToSignOf (endpoint region accessKeyId nowIso : String) : String :=
  "AWS4-HMAC-SHA256\n" ++ amzDateOf nowIso ++ "\n"
    ++ credentialScopeOf region nowIso ++ "\n"
    ++ sha256 (canonicalRequestOf endpoint region accessKeyId nowIso)

/-- The derived signing key: four chained HMAC steps seeded with
`AWS4<secret>` over date, region, service and `aws4_request`. -/
def signingKeyOf (region secretAccessKey nowIso : String) : List Nat :=
  hmac (hmac (hmac (hmac (utf8Encode ("AWS4" ++ secretAccessKey))
    (dateStampOf nowIso)) region) serviceName) "aws4_request"

/-- The hex signature of the string-to-sign under the derived key. -/
def signatureOf (endpoint region : String) (credentials : AwsCredentials)
    (nowIso : String) : String :=
  bytesToHex (hmac (signingKeyOf region credentials.SecretAccessKey nowIso)
    (stringToSignOf endpoint region credentials.AccessKeyId nowIso))

/-- The `signWebSocketUrl(endpoint, region, credentials)` from
`aws-sig-v4.ts` (the `new Date()` read embedded as `nowIso`): the signed
`wss://` URL, with the security token appended after the signature only
when present. -/
def signWebSocketUrl (endpoint region : String) (credentials : AwsCredentials)
    (nowIso : String) : String :=
  let url := "wss://" ++ endpoint ++ "/mqtt?"
    ++ canonicalQueryStringOf region credentials.AccessKeyId nowIso
    ++ "&X-Amz-Signature=" ++ signatureOf endpoint region credentials nowIso
  if credentials.Token ≠ "" then
    url ++ "&X-Amz-Security-Token=" ++ encodeURIComponent credentials.Token
  else url

end Dolphin

namespace Dolphin

/-- C2. `calculateState` agrees with first-match evaluation of the
spec's ordered rule list (rules 1–6 in order, rule 7 as the fallthrough),
and is total and deterministic: every input pair, any strings included,
yields exactly one of the seven derived statuses. -/
theorem calculateState_first_match_total (p r : String) :
    calculateState p r = firstMatch statusRules p r
      ∧ calculateState p r ∈ derivedStatuses := by
  constructor
  · simp only [calculateState, statusRules, firstMatch, Bool.or_eq_true, Bool.and_eq_true,
      beq_iff_eq, bne_iff_ne, and_assoc]
  · simp only [calculateState, derivedStatuses]
    split_ifs <;> simp

/-- C3. `getFilterBagStatus` is total over the integers, never
raises, and takes exactly the claimed boundary values: `0 → empty`,
`25 → partially_full`, `26 → getting_full`, `74 → getting_full`,
`75 → almost_full`, `99 → almost_full`, `100 → full`, `101 → fault`,
`102 → not_available`, `-1 → unknown`, `103 → unknown`; moreover every
negative value and every value above 102 maps to `unknown`, and every
value maps to one of the eight classifications. -/
theorem getFilterBagStatus_boundaries :
    getFilterBagStatus 0 = "empty"
      ∧ getFilterBagStatus 25 = "partially_full"
      ∧ getFilterBagStatus 26 = "getting_full"
      ∧ getFilterBagStatus 74 = "getting_full"
      ∧ getFilterBagStatus 75 = "almost_full"
      ∧ getFilterBagStatus 99 = "almost_full"
      ∧ getFilterBagStatus 100 = "full"
      ∧ getFilterBagStatus 101 = "fault"
      ∧ getFilterBagStatus 102 = "not_available"
      ∧ getFilterBagStatus (-1) = "unknown"
      ∧ getFilterBagStatus 103 = "unknown"
      ∧ (∀ v : Int, v < 0 → getFilterBagStatus v = "unknown")
      ∧ (∀ v : Int, 102 < v → getFilterBagStatus v = "unknown")
      ∧ (∀ v : Int, getFilterBagStatus v ∈ filterBagStatuses) := by
  refine ⟨by decide, by decide, by decide, by decide, by decide, by decide, by decide,
    by decide, by decide, by decide, by decide, ?_, ?_, ?_⟩
  · intro v hv
    simp [getFilterBagStatus, hv]
  · intro v hv
    unfold getFilterBagStatus
    split_ifs <;> first | rfl | omega
  · intro v
    unfold getFilterBagStatus filterBagStatuses
    split_ifs <;> simp

/-- Witness for C3: the hypothesis-bearing conjuncts hold at the
concrete inputs `-5` and `200`. -/
theorem getFilterBagStatus_boundaries_witness :
    getFilterBagStatus (-5) = "unknown" ∧ getFilterBagStatus 200 = "unknown" :=
  ⟨getFilterBagStatus_boundaries.2.2.2.2.2.2.2.2.2.2.2.1 (-5) (by decide),
   getFilterBagStatus_boundaries.2.2.2.2.2.2.2.2.2.2.2.2.1 200 (by decide)⟩

/-- C4. `sendCommand` with the client absent or the connected flag
down emits exactly one error event, publishes nothing, leaves the state
unchanged and does not throw; when connected it publishes the document
`{state:{desired}}` to the shadow update topic of the stored device id. -/
theorem sendCommand_disconnected_error (st : CloudState) (desired : Json) :
    ((st.client = none ∨ st.connected = false) →
      sendCommand st desired
        = (st, [CloudEvent.errorEv "Cannot send command: not connected"], []))
      ∧ (st.client ≠ none → st.connected = true →
        sendCommand st desired
          = (st, [], [{ topic := getShadowUpdateTopic st.motorUnitSerial,
                        payload := Json.obj [("state", Json.obj [("desired", desired)])] }])) := by
  constructor
  · intro h
    simp [sendCommand, h]
  · intro h1 h2
    simp [sendCommand, h1, h2]

/-- Witness for C4: both branches evaluated at concrete session states. -/
theorem sendCommand_disconnected_error_witness :
    sendCommand ⟨none, "SER1", false⟩ (Json.obj [])
        = (⟨none, "SER1", false⟩,
           [CloudEvent.errorEv "Cannot send command: not connected"], [])
      ∧ sendCommand ⟨some 0, "SER1", true⟩ (Json.obj [])
        = (⟨some 0, "SER1", true⟩, [],
           [{ topic := getShadowUpdateTopic "SER1",
              payload := Json.obj [("state", Json.obj [("desired", Json.obj [])])] }]) :=
  ⟨(sendCommand_disconnected_error ⟨none, "SER1", false⟩ (Json.obj [])).1 (Or.inl rfl),
   (sendCommand_disconnected_error ⟨some 0, "SER1", true⟩ (Json.obj [])).2
     (by simp) rfl⟩

/-- A run of close signals starting from a state whose connected flag is
down emits nothing and leaves the state unchanged. -/
theorem runCloses_of_not_connected (st : CloudState) (h : st.connected = false) :
    ∀ n, runCloses st n = (st, []) := by
  intro n
  induction n with
  | zero => rfl
  | succ n ih => simp [runCloses, onClose, h, ih]

/-- C6. The close handler emits `disconnected` only when the
connected flag was up, always leaves the flag down, is a no-op on an
already-closed state, and over any sequence of close signals the
`disconnected` event is emitted exactly once per prior-connected
transition: once if the state was connected and at least one signal
arrives, never otherwise. -/
theorem close_signals_disconnect_once (st : CloudState) (n : Nat) :
    (CloudEvent.disconnectedEv ∈ (onClose st).2 → st.connected = true)
      ∧ (onClose st).1.connected = false
      ∧ (st.connected = false → onClose st = (st, []))
      ∧ countDisconnected (runCloses st n).2
          = (if st.connected = true ∧ 0 < n then 1 else 0) := by
  refine ⟨?_, ?_, ?_, ?_⟩
  · intro hmem
    by_contra hc
    simp [onClose, hc] at hmem
  · by_cases h : st.connected <;> simp [onClose, h]
  · intro h
    simp [onClose, h]
  · by_cases h : st.connected
    · cases n with
      | zero => simp [runCloses, countDisconnected]
      | succ n =>
        have hrest := runCloses_of_not_connected { st with connected := false } rfl n
        simp [runCloses, onClose, h, hrest, countDisconnected]
    · have hb : st.connected = false := by simpa using h
      simp [runCloses_of_not_connected st hb n, countDisconnected, hb]

/-- Witness for C6: a connected state followed by three close signals
emits exactly one `disconnected` event. -/
theorem close_signals_disconnect_once_witness :
    (⟨some 0, "SER1", false⟩ : CloudState).connected = false →
      onClose ⟨some 0, "SER1", false⟩ = (⟨some 0, "SER1", false⟩, []) :=
  (close_signals_disconnect_once ⟨some 0, "SER1", false⟩ 3).2.2.1

/-- C7. At most one live transport exists per session: from any
state satisfying the session invariant, `disconnect` is a no-op when no
client exists, otherwise ends the client and nulls the handle leaving
no live transport; `connect` (which first runs `disconnect` to
completion) leaves exactly the one freshly created transport live, so a
second `connect` exactly replaces any prior transport. -/
theorem connect_replaces_transport (w : SessionWorld) (serial : String)
    (hw : SessionInv w) :
    (w.st.client = none → disconnectOp w = w)
      ∧ (disconnectOp w).st.client = none
      ∧ (disconnectOp w).liveTransports = []
      ∧ SessionInv (disconnectOp w)
      ∧ (connectOp w serial).st.client = some w.nextId
      ∧ (connectOp w serial).liveTransports = [w.nextId]
      ∧ (connectOp w serial).liveTransports.length ≤ 1
      ∧ SessionInv (connectOp w serial)
      ∧ (∀ h, w.st.client = some h → h ∉ (connectOp w serial).liveTransports) := by
  obtain ⟨hlist, hlt⟩ := hw
  have herase : w.liveTransports.erase (w.st.client.getD 0) = []
      ∨ w.st.client = none := by
    cases hc : w.st.client with
    | none => exact Or.inr rfl
    | some h => simp [hlist, hc, List.erase_cons]
  refine ⟨?_, ?_, ?_, ?_, ?_, ?_, ?_, ?_, ?_⟩
  · intro h
    simp [disconnectOp, h]
  · cases hc : w.st.client <;> simp [disconnectOp, hc]
  · cases hc : w.st.client with
    | none => simp [disconnectOp, hc, hlist]
    | some h => simp [disconnectOp, hc, hlist, List.erase_cons]
  · cases hc : w.st.client with
    | none =>
      simp only [disconnectOp, hc]
      exact ⟨by simp [hlist, hc], hlt⟩
    | some h =>
      refine ⟨?_, ?_⟩ <;> simp [disconnectOp, hc, hlist, List.erase_cons]
  · cases hc : w.st.client <;> simp [connectOp, disconnectOp, hc]
  · cases hc : w.st.client <;>
      simp [connectOp, disconnectOp, hc, hlist, List.erase_cons]
  · cases hc : w.st.client <;>
      simp [connectOp, disconnectOp, hc, hlist, List.erase_cons]
  · cases hc : w.st.client with
    | none =>
      refine ⟨by simp [connectOp, disconnectOp, hc, hlist], ?_⟩
      simp [connectOp, disconnectOp, hc, hlist]
    | some h =>
      refine ⟨by simp [connectOp, disconnectOp, hc, hlist, List.erase_cons], ?_⟩
      simp [connectOp, disconnectOp, hc, hlist, List.erase_cons]
  · intro h hc
    have hlth : h < w.nextId := hlt h (by simp [hlist, hc])
    cases hc2 : w.st.client <;>
      simp_all [connectOp, disconnectOp, hc, hlist, List.erase_cons]
    omega

/-- Witness for C7: in a world holding transport 5, a second connect
replaces it with the fresh transport 6. -/
theorem connect_replaces_transport_witness :
    (connectOp ⟨⟨some 5, "SER1", true⟩, [5], 6⟩ "SER1").liveTransports = [6] :=
  (connect_replaces_transport ⟨⟨some 5, "SER1", true⟩, [5], 6⟩ "SER1"
    (by constructor <;> decide)).2.2.2.2.2.1

/-- One `onStateUpdate` step with a `systemState` fragment: the recorded
status becomes the derived status, and the cleaning triggers fire as
indicators of the status transition. -/
theorem onStateUpdate_status_step (dev : DeviceState) (state : ReportedState)
    (nowMs : Int) (sys : SystemState) (hsys : state.systemState = some sys) :
    (onStateUpdate dev state nowMs).1.previousStatus = derivedOf state
      ∧ ((onStateUpdate dev state nowMs).2.triggers.countP isStarted
        = if derivedOf state = "cleaning" ∧ dev.previousStatus ≠ "cleaning" then 1 else 0)
      ∧ ((onStateUpdate dev state nowMs).2.triggers.countP isFinished
        = if dev.previousStatus = "cleaning" ∧ derivedOf state ≠ "cleaning" then 1 else 0) := by
  have hd : derivedOf state = calculateState sys.pwsState sys.robotState := by
    simp [derivedOf, hsys]
  refine ⟨?_, ?_, ?_⟩ <;>
  · simp only [onStateUpdate, hsys, hd]
    cases hfb : state.filterBagIndication <;>
      cases herr : state.robotError <;>
        by_cases hne : dev.previousStatus = calculateState sys.pwsState sys.robotState <;>
          simp [hne, handleStatusChange, filterBagEffects, robotErrorEffects,
            List.countP_append, List.countP_cons, isStarted, isFinished] <;>
            split_ifs <;>
              simp_all [List.countP_cons, List.countP_nil, isStarted, isFinished]

/-- Folding a sequence of updates that all carry a `systemState`
fragment counts exactly the cleaning transitions of the derived status
trace. -/
theorem runUpdates_counts (updates : List (ReportedState × Int)) :
    ∀ dev : DeviceState, (∀ u ∈ updates, u.1.systemState.isSome) →
      ((runUpdates dev updates).2.countP isStarted
        = countStartTransitions dev.previousStatus (updates.map fun u => derivedOf u.1))
      ∧ ((runUpdates dev updates).2.countP isFinished
        = countFinishTransitions dev.previousStatus (updates.map fun u => derivedOf u.1)) := by
  induction updates with
  | nil => intro dev _; simp [runUpdates, countStartTransitions, countFinishTransitions]
  | cons u rest ih =>
    intro dev h
    obtain ⟨sys, hsys⟩ : ∃ sys, u.1.systemState = some sys :=
      Option.isSome_iff_exists.mp (h u (by simp))
    have step := onStateUpdate_status_step dev u.1 u.2 sys hsys
    have hres := ih (onStateUpdate dev u.1 u.2).1 (fun v hv => h v (by simp [hv]))
    constructor
    · show (runUpdates dev (u :: rest)).2.countP isStarted = _
      simp only [runUpdates, List.countP_append, List.map_cons, countStartTransitions]
      rw [step.2.1, hres.1, step.1]
    · show (runUpdates dev (u :: rest)).2.countP isFinished = _
      simp only [runUpdates, List.countP_append, List.map_cons, countFinishTransitions]
      rw [step.2.2, hres.2, step.1]

/-- C5. Over every sequence of reported-state updates carrying a
`systemState` fragment, `cleaning_started` fires exactly once at each
update whose derived status enters `cleaning` from a different value,
`cleaning_finished` fires exactly once at each update whose derived
status leaves `cleaning`, and an update whose derived status equals the
recorded previous status fires neither trigger. -/
theorem cleaning_triggers_fire_per_transition (dev : DeviceState)
    (updates : List (ReportedState × Int))
    (h : ∀ u ∈ updates, u.1.systemState.isSome) :
    ((runUpdates dev updates).2.countP isStarted
      = countStartTransitions dev.previousStatus (updates.map fun u => derivedOf u.1))
      ∧ ((runUpdates dev updates).2.countP isFinished
        = countFinishTransitions dev.previousStatus (updates.map fun u => derivedOf u.1))
      ∧ (∀ (state : ReportedState) (nowMs : Int), state.systemState.isSome →
        derivedOf state = dev.previousStatus →
          (onStateUpdate dev state nowMs).2.triggers.countP isStarted = 0
          ∧ (onStateUpdate dev state nowMs).2.triggers.countP isFinished = 0) := by
  refine ⟨(runUpdates_counts updates dev h).1, (runUpdates_counts updates dev h).2, ?_⟩
  intro state nowMs hsome heq
  obtain ⟨sys, hsys⟩ : ∃ sys, state.systemState = some sys :=
    Option.isSome_iff_exists.mp hsome
  have step := onStateUpdate_status_step dev state nowMs sys hsys
  refine ⟨?_, ?_⟩
  · rw [step.2.1, heq]; simp
  · rw [step.2.2, heq]; simp

/-- Witness for C5: from the initial recorded status `""`, an update
deriving `cleaning` then one deriving `off` fire one `cleaning_started`
and one `cleaning_finished`. -/
theorem cleaning_triggers_fire_per_transition_witness :
    ((runUpdates ⟨"", ⟨1, 80, true⟩⟩
        [({ systemState := some ⟨"on", "scanning", none⟩ }, 0),
         ({ systemState := some ⟨"off", "finished", none⟩ }, 0)]).2.countP isStarted
      = countStartTransitions ""
          ([(({ systemState := some ⟨"on", "scanning", none⟩ } : ReportedState), (0 : Int)),
            ({ systemState := some ⟨"off", "finished", none⟩ }, 0)].map
            fun u => derivedOf u.1)) :=
  (cleaning_triggers_fire_per_transition ⟨"", ⟨1, 80, true⟩⟩
    [({ systemState := some ⟨"on", "scanning", none⟩ }, 0),
     ({ systemState := some ⟨"off", "finished", none⟩ }, 0)]
    (by
      intro u hu
      simp only [List.mem_cons, List.not_mem_nil, or_false] at hu
      rcases hu with h | h <;> subst h <;> simp)).1

/-- The `filter_bag_full` trigger can only come from the
`filterBagIndicationation` block: it never appears among the
status-change triggers. -/
theorem filterBagFull_not_in_handleStatusChange (p c : String)
    (state : ReportedState) :
    DeviceTrigger.filterBagFull ∉ handleStatusChange p c state := by
  unfold handleStatusChange
  split_ifs <;> simp

/-- Membership of `filter_bag_full` among the triggers of one update
with a `filterBagIndication` fragment, for any device state. -/
theorem filterBagFull_mem_triggers (dev : DeviceState) (state : ReportedState)
    (nowMs : Int) (fb : FilterBagIndication)
    (hfb : state.filterBagIndication = some fb) :
    DeviceTrigger.filterBagFull ∈ (onStateUpdate dev state nowMs).2.triggers
      ↔ 0 ≤ fb.state ∧ fb.state ≤ 100 ∧ 100 ≤ fb.state := by
  simp only [onStateUpdate, hfb]
  cases hsys : state.systemState <;>
    cases herr : state.robotError <;>
      (simp [filterBagEffects, robotErrorEffects, handleStatusChange,
        List.mem_append] <;> split_ifs <;> simp_all)

/-- C9. For every update carrying a `filterBagIndication` fragment:
the `filter_status` capability is set to the fragment's value whenever
it lies within 0–100; the `filter_bag_full` trigger fires exactly on
the updates whose in-range value meets the `≥ 100` threshold; and the
firing is level-triggered — it does not depend on the device state left
by previous updates. -/
theorem filter_capability_and_trigger (dev : DeviceState) (state : ReportedState)
    (nowMs : Int) (fb : FilterBagIndication)
    (hfb : state.filterBagIndication = some fb) :
    (0 ≤ fb.state ∧ fb.state ≤ 100 →
      ("filter_status", CapValue.i fb.state)
        ∈ (onStateUpdate dev state nowMs).2.capabilityWrites)
      ∧ (DeviceTrigger.filterBagFull ∈ (onStateUpdate dev state nowMs).2.triggers
        ↔ 0 ≤ fb.state ∧ fb.state ≤ 100 ∧ 100 ≤ fb.state)
      ∧ (∀ dev' : DeviceState,
        (DeviceTrigger.filterBagFull ∈ (onStateUpdate dev state nowMs).2.triggers
          ↔ DeviceTrigger.filterBagFull ∈ (onStateUpdate dev' state nowMs).2.triggers)) := by
  refine ⟨?_, filterBagFull_mem_triggers dev state nowMs fb hfb, fun dev' =>
    (filterBagFull_mem_triggers dev state nowMs fb hfb).trans
      (filterBagFull_mem_triggers dev' state nowMs fb hfb).symm⟩
  intro hrange
  have hmem : ("filter_status", CapValue.i fb.state) ∈ (filterBagEffects fb).1 := by
    simp [filterBagEffects, hrange]
  cases hsys : state.systemState with
  | none =>
    simp only [onStateUpdate, hsys, hfb]
    exact List.mem_append_left _ (List.mem_append_left _ (List.mem_append_left _
      (List.mem_append_right _ hmem)))
  | some sys =>
    simp only [onStateUpdate, hsys, hfb]
    split_ifs <;>
      exact List.mem_append_left _ (List.mem_append_left _ (List.mem_append_left _
        (List.mem_append_right _ hmem)))

/-- Witness for C9: a lone `filterBagIndication.state = 100` fragment
writes `filter_status = 100`. -/
theorem filter_capability_and_trigger_witness :
    ("filter_status", CapValue.i 100)
      ∈ (onStateUpdate ⟨"", ⟨1, 80, true⟩⟩ { filterBagIndication := some ⟨100⟩ }
          0).2.capabilityWrites :=
  (filter_capability_and_trigger ⟨"", ⟨1, 80, true⟩⟩
    { filterBagIndication := some ⟨100⟩ } 0 ⟨100⟩ rfl).1 ⟨by decide, by decide⟩

/-- The `systemState` block never writes the `cleaning_mode`
capability. -/
theorem cleaning_mode_not_in_systemStateWrites (sys : SystemState) (v : CapValue) :
    ("cleaning_mode", v) ∉ systemStateWrites sys := by
  cases h : sys.rTurnOnCount <;> simp [systemStateWrites, h]

/-- The network block never writes the `cleaning_mode` capability. -/
theorem cleaning_mode_not_in_networkWrites (state : ReportedState) (v : CapValue) :
    ("cleaning_mode", v) ∉ networkWrites state := by
  unfold networkWrites
  cases hd : state.debug with
  | none => split_ifs <;> simp
  | some d => cases hr : d.WIFI_RSSI <;> simp only [hr] <;> split_ifs <;> simp

/-- The filter-bag block never writes the `cleaning_mode` capability. -/
theorem cleaning_mode_not_in_filterBag (fb : FilterBagIndication) (v : CapValue) :
    ("cleaning_mode", v) ∉ (filterBagEffects fb).1 := by
  unfold filterBagEffects
  split_ifs <;> simp

/-- The robot-error block never writes the `cleaning_mode` capability. -/
theorem cleaning_mode_not_in_robotError (e : ErrorInfo) (v : CapValue) :
    ("cleaning_mode", v) ∉ (robotErrorEffects e).1 := by
  simp [robotErrorEffects]

/-- The LED block never writes the `cleaning_mode` capability. -/
theorem cleaning_mode_not_in_ledWrites (l : LedState) (v : CapValue) :
    ("cleaning_mode", v) ∉ ledWrites l := by
  simp [ledWrites]

/-- The `cycleInfo` block never writes the `cleaning_mode` capability
when the reported mode is `pickup`. -/
theorem cleaning_mode_not_in_cycleInfoWrites_pickup (calcOpt : Option String)
    (ci : CycleInfo) (nowMs : Int) (cm : CleaningMode)
    (hcm : ci.cleaningMode = some cm) (hpk : cm.mode = "pickup") (v : CapValue) :
    ("cleaning_mode", v) ∉ cycleInfoWrites calcOpt (some ci) nowMs := by
  simp only [cycleInfoWrites, hcm, hpk]
  split_ifs <;> simp_all

/-- C10. An update whose `cycleInfo.cleaningMode.mode` is `pickup`
(the mode return-to-base sends) leaves the `cleaning_mode` capability
untouched, while every other non-empty mode value is written to it. -/
theorem pickup_mode_never_written (dev : DeviceState) (state : ReportedState)
    (nowMs : Int) (ci : CycleInfo) (cm : CleaningMode)
    (hci : state.cycleInfo = some ci) (hcm : ci.cleaningMode = some cm)
    (hmode : cm.mode ≠ "") :
    (cm.mode = "pickup" →
      ∀ v, ("cleaning_mode", v) ∉ (onStateUpdate dev state nowMs).2.capabilityWrites)
      ∧ (cm.mode ≠ "pickup" →
        ("cleaning_mode", CapValue.s cm.mode)
          ∈ (onStateUpdate dev state nowMs).2.capabilityWrites) := by
  constructor
  · intro hpk v
    have hcyc : ∀ calcOpt : Option String,
        ("cleaning_mode", v) ∉ cycleInfoWrites calcOpt state.cycleInfo nowMs := by
      intro calcOpt
      rw [hci]
      exact cleaning_mode_not_in_cycleInfoWrites_pickup calcOpt ci nowMs cm hcm hpk v
    cases hsys : state.systemState <;>
      cases hfb : state.filterBagIndication <;>
        cases herr : state.robotError <;>
          cases hled : state.led <;>
            (simp only [onStateUpdate, hsys, hfb, herr, hled]
             <;> (try split_ifs)
             <;> simp_all [List.mem_append, not_or,
               cleaning_mode_not_in_systemStateWrites,
               cleaning_mode_not_in_networkWrites,
               cleaning_mode_not_in_filterBag,
               cleaning_mode_not_in_robotError,
               cleaning_mode_not_in_ledWrites])
  · intro hnp
    have hmem : ∀ calcOpt : Option String,
        ("cleaning_mode", CapValue.s cm.mode)
          ∈ cycleInfoWrites calcOpt state.cycleInfo nowMs := by
      intro calcOpt
      simp [cycleInfoWrites, hci, hcm, hmode, hnp]
    cases hsys : state.systemState with
    | none =>
      simp only [onStateUpdate, hsys]
      exact List.mem_append_left _ (List.mem_append_left _ (List.mem_append_left _
        (List.mem_append_left _ (List.mem_append_right _ (hmem _)))))
    | some sys =>
      simp only [onStateUpdate, hsys]
      split_ifs <;>
        exact List.mem_append_left _ (List.mem_append_left _ (List.mem_append_left _
          (List.mem_append_left _ (List.mem_append_right _ (hmem _)))))

/-- Witness for C10: a `pickup` update does not write `cleaning_mode`;
a `floor` update does. -/
theorem pickup_mode_never_written_witness :
    ("cleaning_mode", CapValue.s "pickup")
        ∉ (onStateUpdate ⟨"", ⟨1, 80, true⟩⟩
            { cycleInfo := some ⟨some ⟨"pickup", none, none⟩⟩ } 0).2.capabilityWrites
      ∧ ("cleaning_mode", CapValue.s "floor")
        ∈ (onStateUpdate ⟨"", ⟨1, 80, true⟩⟩
            { cycleInfo := some ⟨some ⟨"floor", none, none⟩⟩ } 0).2.capabilityWrites :=
  ⟨(pickup_mode_never_written ⟨"", ⟨1, 80, true⟩⟩
      { cycleInfo := some ⟨some ⟨"pickup", none, none⟩⟩ } 0
      ⟨some ⟨"pickup", none, none⟩⟩ ⟨"pickup", none, none⟩ rfl rfl
      (by decide)).1 rfl (CapValue.s "pickup"),
   (pickup_mode_never_written ⟨"", ⟨1, 80, true⟩⟩
      { cycleInfo := some ⟨some ⟨"floor", none, none⟩⟩ } 0
      ⟨some ⟨"floor", none, none⟩⟩ ⟨"floor", none, none⟩ rfl rfl
      (by decide)).2 (by decide)⟩

/-- C1. When the session token is present, the signed URL is
exactly the token-free signed URL with `X-Amz-Security-Token` appended
after `X-Amz-Signature`; the canonical query string over which the
signature is computed is built from endpoint, region, access key and
timestamp alone (the token is not an input to it), and the signature is
unchanged by erasing the token; when the token is empty nothing is
appended. -/
theorem token_excluded_from_signing (endpoint region : String)
    (credentials : AwsCredentials) (nowIso : String)
    (htok : credentials.Token ≠ "") :
    signWebSocketUrl endpoint region credentials nowIso
      = signWebSocketUrl endpoint region { credentials with Token := "" } nowIso
        ++ "&X-Amz-Security-Token=" ++ encodeURIComponent credentials.Token
      ∧ signWebSocketUrl endpoint region { credentials with Token := "" } nowIso
        = "wss://" ++ endpoint ++ "/mqtt?"
          ++ canonicalQueryStringOf region credentials.AccessKeyId nowIso
          ++ "&X-Amz-Signature=" ++ signatureOf endpoint region credentials nowIso
      ∧ signatureOf endpoint region { credentials with Token := "" } nowIso
        = signatureOf endpoint region credentials nowIso := by
  refine ⟨?_, ?_, rfl⟩
  · simp [signWebSocketUrl, htok, signatureOf]
  · simp [signWebSocketUrl, signatureOf]

/-- Witness for C1: the decomposition at a concrete credential set with
a non-empty token. -/
theorem token_excluded_from_signing_witness :
    signWebSocketUrl "host.example" "eu-west-1"
        ⟨"TOKEN1", "AKIDEXAMPLE", "SECRETKEY"⟩ "2024-01-02T03:04:05.123Z"
      = signWebSocketUrl "host.example" "eu-west-1"
          { (⟨"TOKEN1", "AKIDEXAMPLE", "SECRETKEY"⟩ : AwsCredentials) with Token := "" }
          "2024-01-02T03:04:05.123Z"
        ++ "&X-Amz-Security-Token="
        ++ encodeURIComponent (⟨"TOKEN1", "AKIDEXAMPLE", "SECRETKEY"⟩ :
            AwsCredentials).Token :=
  (token_excluded_from_signing "host.example" "eu-west-1"
    ⟨"TOKEN1", "AKIDEXAMPLE", "SECRETKEY"⟩ "2024-01-02T03:04:05.123Z" (by decide)).1

/-- C8. Signing is a pure deterministic function of endpoint,
region, credential set and UTC instant: two invocations agreeing on all
of them produce byte-identical URLs (the embedding passes no other
state, so there are no side effects and no stored state). -/
theorem signing_deterministic (endpoint region : String)
    (c1 c2 : AwsCredentials) (nowIso : String)
    (hak : c1.AccessKeyId = c2.AccessKeyId)
    (hsk : c1.SecretAccessKey = c2.SecretAccessKey)
    (htk : c1.Token = c2.Token) :
    signWebSocketUrl endpoint region c1 nowIso
      = signWebSocketUrl endpoint region c2 nowIso := by
  cases c1
  cases c2
  cases hak
  cases hsk
  cases htk
  rfl

/-- Witness for C8: two invocations at the same concrete inputs agree. -/
theorem signing_deterministic_witness :
    signWebSocketUrl "host.example" "eu-west-1"
        ⟨"TOK", "AKID", "SK"⟩ "2024-01-02T03:04:05.123Z"
      = signWebSocketUrl "host.example" "eu-west-1"
          ⟨"TOK", "AKID", "SK"⟩ "2024-01-02T03:04:05.123Z" :=
  signing_deterministic "host.example" "eu-west-1"
    ⟨"TOK", "AKID", "SK"⟩ ⟨"TOK", "AKID", "SK"⟩ "2024-01-02T03:04:05.123Z" rfl rfl rfl

end Dolphin
